import Mathlib

/-
Verification of the animal-simulation repository (animal.py, mammal.py,
canine.py): a shallow embedding of the stat-mutation and activity-logging
engine shared by the Animal → Mammal → Canine hierarchy, with theorems
about its invariants, error handling and probabilistic operations.

Modelling decisions:
* Python numeric state (ints and floats) is modelled by ℚ; the claims under
  study concern exact deltas and [0,100] clamps, none of which depend on
  binary floating-point rounding.
* `datetime.now()` is modelled by an explicit `now : Nat` clock argument
  passed to every operation that creates a record.
* The `random` module is modelled by a seedable pure linear congruential
  generator over a `Nat` seed; `random.random()` becomes `randomRandom`
  (a draw in [0,1)) and `random.uniform a b` becomes `randomUniform a b`.
  The exact Mersenne-twister stream is not reproduced; what matters for the
  claims is that draws are a pure function of the seed and lie in [0,1).
* `raise ValueError(msg)` is modelled by `Except.error (PyError.valueError
  msg)`; methods that return a status dict are modelled by inductive result
  types whose `status` projection mirrors the dict's `'status'` key.
* An entity is one `CanineState` record carrying the Animal, Mammal and
  Canine instance fields that the modelled operations read or write.
-/

namespace AnimalSim

/-- A record in an activity log: `AnimalRecord(record_type, description,
timestamp)` from animal.py (the derived `id` field is a pure function of
these and is omitted). -/
structure AnimalRecord where
  record_type : String
  description : String
  timestamp : Nat
deriving DecidableEq

/-- The part of `AnimalHealth` (animal.py) that `age_up` can touch. -/
structure HealthState where
  health_status : String
  last_checkup : Option Nat
  medical_records : List AnimalRecord
deriving DecidableEq

/-- One entry of `Canine.digging_spots` (canine.py, `dig_hole`). -/
structure DigSpot where
  location : String
  purpose : String
  depth_cm : ℚ
  timestamp : Nat
  success : Bool
deriving DecidableEq

/-- One entry of `Canine.play_sessions` (canine.py, `play_with_object`). -/
structure PlaySession where
  object : String
  duration_minutes : ℚ
  timestamp : Nat
  enjoyment_level : ℚ
  energy_spent : ℚ
deriving DecidableEq

/-- The mutable state of one entity: the Animal fields (animal.py
`__init__`) plus the Mammal/Canine fields read or written by the modelled
operations.  Identity fields that no modelled operation changes
(species, owner, gender, id, birth/registration dates) are omitted. -/
structure CanineState where
  name : String
  is_alive : Bool
  is_hungry : Bool
  is_sleeping : Bool
  energy_level : ℚ
  happiness_level : ℚ
  age : Int
  weight : ℚ
  last_fed : Option Nat
  last_exercise : Option Nat
  health : HealthState
  activity_log : List AnimalRecord
  favorite_activities : List String
  playfulness : ℚ
  scent_tracking_ability : ℚ
  pursuit_endurance_km : ℚ
  trainability_score : ℚ
  loyalty_level : ℚ
  digging_spots : List DigSpot
  tracking_records : List AnimalRecord
  play_sessions : List PlaySession
  learned_commands : List String
  training_sessions : List AnimalRecord
deriving DecidableEq

/-- A Python exception escaping a method. -/
inductive PyError where
  | valueError : String → PyError
deriving DecidableEq

/-- Seedable pseudo-random generator: one step of a linear congruential
generator, standing in for the `random` module's seeded stream. -/
def lcgNext (seed : Nat) : Nat :=
  (1103515245 * seed + 12345) % 2147483648

/-- `random.random()`: a draw in [0,1) together with the advanced seed
(`Rat.divInt` is exact division, kept in that form so that concrete draws
evaluate). -/
def randomRandom (seed : Nat) : ℚ × Nat :=
  (Rat.divInt (lcgNext seed) 2147483648, lcgNext seed)

/-- `random.uniform a b`: `a + (b - a) * random.random()`. -/
def randomUniform (a b : ℚ) (seed : Nat) : ℚ × Nat :=
  let p := randomRandom seed
  (a + (b - a) * p.1, p.2)

/-- `Animal._log_activity`: append one record to the activity log. -/
def logActivity (s : CanineState) (activity_type description : String)
    (now : Nat) : CanineState :=
  { s with activity_log := s.activity_log ++ [⟨activity_type, description, now⟩] }

/-- `AnimalHealth.update_health_status(status, notes)`: set the status and
checkup time; when `notes` is nonempty also append one medical record. -/
def updateHealthStatus (h : HealthState) (status notes : String)
    (now : Nat) : HealthState :=
  let h1 := { h with health_status := status, last_checkup := some now }
  if notes = "" then h1
  else { h1 with medical_records :=
    h1.medical_records ++ [⟨"checkup", "健康状态更新为" ++ status ++ ": " ++ notes, now⟩] }

/-- `Animal.feed(food_type, amount)`: raises ValueError when dead,
otherwise clears hunger, adds 20 energy and 10 happiness (clamped at 100),
stamps `last_fed` and logs one record. -/
def feed (s : CanineState) (food_type : String) (amount : ℚ)
    (now : Nat) : Except PyError CanineState :=
  if s.is_alive = false then
    .error (.valueError (s.name ++ "已经死亡，无法喂食"))
  else
    .ok (logActivity
      { s with
        is_hungry := false
        energy_level := min 100 (s.energy_level + 20)
        happiness_level := min 100 (s.happiness_level + 10)
        last_fed := some now }
      "喂食" ("喂食" ++ food_type ++ "，数量: " ++ toString amount) now)

/-- The post-state of `feed`: on an exception the entity is unchanged. -/
def feedState (s : CanineState) (food_type : String) (amount : ℚ)
    (now : Nat) : CanineState :=
  match feed s food_type amount now with
  | .ok t => t
  | .error _ => s

/-- `Animal.exercise(exercise_type, duration)`: raises ValueError when dead
or when energy < 20; otherwise drops 15 energy (clamped at 0), adds 15
happiness (clamped at 100), stamps `last_exercise`, records the activity
type among favourites and logs one record. -/
def exercise (s : CanineState) (exercise_type : String) (duration : ℚ)
    (now : Nat) : Except PyError CanineState :=
  if s.is_alive = false then
    .error (.valueError (s.name ++ "已经死亡，无法运动"))
  else if s.energy_level < 20 then
    .error (.valueError (s.name ++ "太累了，需要休息"))
  else
    .ok (logActivity
      { s with
        energy_level := max 0 (s.energy_level - 15)
        happiness_level := min 100 (s.happiness_level + 15)
        last_exercise := some now
        favorite_activities :=
          if exercise_type ∈ s.favorite_activities then s.favorite_activities
          else s.favorite_activities ++ [exercise_type] }
      "运动" ("进行" ++ exercise_type ++ "运动，持续" ++ toString duration ++ "分钟") now)

/-- The post-state of `exercise`: on an exception the entity is unchanged. -/
def exerciseState (s : CanineState) (exercise_type : String) (duration : ℚ)
    (now : Nat) : CanineState :=
  match exercise s exercise_type duration now with
  | .ok t => t
  | .error _ => s

/-- `Animal.sleep(duration)`: returns at once when dead; otherwise adds
`duration * 5` energy clamped at 100 and logs one record.  The transient
`is_sleeping = True` window ends inside the call, so the post-state has
`is_sleeping = false`. -/
def sleep (s : CanineState) (duration : ℚ) (now : Nat) : CanineState :=
  if s.is_alive = false then s
  else
    logActivity
      { s with
        is_sleeping := false
        energy_level := min 100 (s.energy_level + duration * 5) }
      "休息" ("睡觉" ++ toString duration ++ "小时") now

/-- `Animal.age_up(years)`: returns at once when dead; otherwise adds
`years` to the age, updates the health status to elderly when the new age
exceeds 0.8 of the life expectancy, and logs one record.  For a Canine the
life expectancy is itself a random draw (canine.py `get_life_expectancy`),
so it is passed in as the `life_expectancy` argument. -/
def age_up (s : CanineState) (years : Int) (life_expectancy : Int)
    (now : Nat) : CanineState :=
  if s.is_alive = false then s
  else
    let old_age := s.age
    let s1 := { s with age := s.age + years }
    let s2 :=
      if (life_expectancy : ℚ) * (8 / 10) < (s1.age : ℚ) then
        { s1 with health := updateHealthStatus s1.health "老年" "进入老年阶段，需要更多关注" now }
      else s1
    logActivity s2 "成长"
      ("从" ++ toString old_age ++ "岁成长到" ++ toString s1.age ++ "岁") now

/-- The result dict of `Mammal.hunt_prey`. -/
inductive HuntResult where
  | insufficient_energy (message : String)
  | success (prey_caught : String) (energy_gained net_energy_change : ℚ)
  | failed (energy_lost : ℚ) (prey_escaped : String)
deriving DecidableEq

/-- The `'status'` key of a `hunt_prey` result dict. -/
def HuntResult.status : HuntResult → String
  | .insufficient_energy _ => "insufficient_energy"
  | .success _ _ _ => "success"
  | .failed _ _ => "failed"

/-- `Mammal.hunt_prey(prey_type, success_rate)`: rejects only when
energy < 30 (there is no liveness check in the source); otherwise charges
25 energy, draws Bernoulli(success_rate); on success gains
`uniform(40,60)` energy and 20 happiness (clamped at 100) and clears
hunger; on failure drops 10 happiness (clamped at 0).  One record is
logged on either branch. -/
def hunt_prey (s : CanineState) (prey_type : String) (success_rate : ℚ)
    (rng now : Nat) : HuntResult × CanineState × Nat :=
  if s.energy_level < 30 then
    (.insufficient_energy "能量不足，无法狩猎", s, rng)
  else
    let hunting_energy_cost : ℚ := 25
    let s1 := { s with energy_level := s.energy_level - hunting_energy_cost }
    let p := randomRandom rng
    if p.1 ≤ success_rate then
      let q := randomUniform 40 60 p.2
      let s2 := { s1 with
        energy_level := min 100 (s1.energy_level + q.1)
        happiness_level := min 100 (s1.happiness_level + 20)
        is_hungry := false }
      (.success prey_type q.1 (q.1 - hunting_energy_cost),
       logActivity s2 "狩猎" ("成功捕获" ++ prey_type) now, q.2)
    else
      let s2 := { s1 with happiness_level := max 0 (s1.happiness_level - 10) }
      (.failed hunting_energy_cost prey_type,
       logActivity s2 "狩猎" ("尝试捕获" ++ prey_type ++ "失败") now, p.2)

/-- The result dict of `Canine.track_scent`. -/
inductive TrackResult where
  | error (message : String)
  | insufficient_energy (message : String)
  | success (scent_type : String) (distance_tracked_km tracking_time_hours : ℚ)
      (trail_quality : String)
  | failed (scent_type reason : String) (energy_wasted : ℚ)
deriving DecidableEq

/-- The difficulty-penalty table of `Canine.track_scent`. -/
def difficultyPenalty (difficulty : String) : ℚ :=
  if difficulty = "简单" then 0
  else if difficulty = "中等" then 1 / 10
  else if difficulty = "困难" then 1 / 5
  else if difficulty = "极难" then 3 / 10
  else 1 / 10

/-- `Canine.track_scent(scent_type, age_hours, difficulty)`: rejects when
dead or when energy < 20; otherwise charges an age/difficulty-dependent
energy cost (clamped at 0) and draws against the computed success rate;
each branch adjusts happiness and appends one record to
`tracking_records` (not the activity log).  The success record's
kilometre figure is elided from the description string. -/
def track_scent (s : CanineState) (scent_type : String) (age_hours : ℚ)
    (difficulty : String) (rng now : Nat) : TrackResult × CanineState × Nat :=
  if s.is_alive = false then (.error "动物已死亡", s, rng)
  else if s.energy_level < 20 then (.insufficient_energy "能量不足，无法追踪", s, rng)
  else
    let base_success_rate := s.scent_tracking_ability / 100
    let age_penalty := min (1 / 2) (age_hours * (1 / 50))
    let dp := difficultyPenalty difficulty
    let success_rate := max (1 / 10) (base_success_rate - age_penalty - dp)
    let energy_cost := 15 + age_hours * (1 / 2) + dp * 50
    let s1 := { s with energy_level := max 0 (s.energy_level - energy_cost) }
    let p := randomRandom rng
    if p.1 ≤ success_rate then
      let q := randomUniform (1 / 2) (s.pursuit_endurance_km * (3 / 10)) p.2
      let s2 := { s1 with
        happiness_level := min 100 (s1.happiness_level + 15)
        tracking_records :=
          s1.tracking_records ++ [⟨"tracking_success", "成功追踪" ++ scent_type, now⟩] }
      (.success scent_type q.1 (q.1 / 3)
        (if 7 / 10 < success_rate then "clear" else "faint"), s2, q.2)
    else
      let s2 := { s1 with
        happiness_level := max 0 (s1.happiness_level - 8)
        tracking_records :=
          s1.tracking_records ++ [⟨"tracking_failed", "追踪" ++ scent_type ++ "失败", now⟩] }
      (.failed scent_type "trail_lost" energy_cost, s2, p.2)

/-- The result dict of `Canine.dig_hole`. -/
inductive DigResult where
  | error (message : String)
  | insufficient_energy (message : String)
  | success (location : String) (depth_cm : ℚ) (purpose : String)
      (energy_consumed : ℚ)
deriving DecidableEq

/-- `Canine.dig_hole(purpose, depth_cm)`: rejects when dead or when
energy < 25; otherwise charges `depth_cm * 0.5` energy (clamped at 0),
appends one digging spot, adds 10 happiness (clamped at 100) and logs one
record. -/
def dig_hole (s : CanineState) (purpose : String) (depth_cm : ℚ)
    (now : Nat) : DigResult × CanineState :=
  if s.is_alive = false then (.error "动物已死亡", s)
  else if s.energy_level < 25 then (.insufficient_energy "能量不足，无法挖洞", s)
  else
    let energy_cost := depth_cm * (1 / 2)
    let location := "位置_" ++ toString (s.digging_spots.length + 1)
    let spot : DigSpot := ⟨location, purpose, depth_cm, now, true⟩
    let s1 := { s with
      energy_level := max 0 (s.energy_level - energy_cost)
      digging_spots := s.digging_spots ++ [spot]
      happiness_level := min 100 (s.happiness_level + 10) }
    (.success location depth_cm purpose energy_cost,
     logActivity s1 "挖洞"
       ("挖了一个" ++ toString depth_cm ++ "厘米深的洞，用途: " ++ purpose) now)

/-- The result dict of `Canine.play_with_object`. -/
inductive PlayResult where
  | error (message : String)
  | insufficient_energy (message : String)
  | success (object : String) (duration_minutes : ℚ)
      (happiness_gained energy_consumed : ℚ) (fun_level : String)
deriving DecidableEq

/-- `Canine.play_with_object(object_type, duration_minutes)`: rejects when
dead or when energy < 15; otherwise charges `duration * 0.8` energy
(clamped at 0), adds `duration * 1.2 + playfulness / 10` happiness
(clamped at 100), appends one play session and logs one record. -/
def play_with_object (s : CanineState) (object_type : String)
    (duration_minutes : ℚ) (rng now : Nat) : PlayResult × CanineState × Nat :=
  if s.is_alive = false then (.error "动物已死亡", s, rng)
  else if s.energy_level < 15 then (.insufficient_energy "太累了，无法玩耍", s, rng)
  else
    let energy_cost := duration_minutes * (4 / 5)
    let happiness_gain := duration_minutes * (6 / 5) + s.playfulness / 10
    let p := randomUniform (7 / 10) 1 rng
    let session : PlaySession := ⟨object_type, duration_minutes, now, p.1, energy_cost⟩
    let s1 := { s with
      energy_level := max 0 (s.energy_level - energy_cost)
      happiness_level := min 100 (s.happiness_level + happiness_gain)
      play_sessions := s.play_sessions ++ [session] }
    (.success object_type duration_minutes happiness_gain energy_cost
       (if 4 / 5 < p.1 then "high" else "moderate"),
     logActivity s1 "游戏"
       ("与" ++ object_type ++ "玩耍" ++ toString duration_minutes ++ "分钟") now, p.2)

/-- The result dict of `Canine.learn_command`. -/
inductive LearnResult where
  | already_known (message : String)
  | success (command : String) (repetitions_needed : ℚ) (trainer : String)
  | progress (command : String) (repetitions_completed : ℚ)
deriving DecidableEq

/-- The `'status'` key of a `learn_command` result dict. -/
def LearnResult.status : LearnResult → String
  | .already_known _ => "already_known"
  | .success _ _ _ => "success"
  | .progress _ _ => "progress"

/-- `Canine.learn_command(command, trainer, repetitions)`: returns
`already_known` when the command is known; otherwise draws against a
trainability/repetition/age-derived success rate; on success appends the
command, adds 8 happiness (clamped at 100) and one training record; on
failure appends one training record only.  There is no liveness or energy
check in the source. -/
def learn_command (s : CanineState) (command trainer : String)
    (repetitions : ℚ) (rng now : Nat) : LearnResult × CanineState × Nat :=
  if command ∈ s.learned_commands then
    (.already_known ("已经学会了" ++ command ++ "命令"), s, rng)
  else
    let base_success_rate := s.trainability_score / 100
    let repetition_bonus := min (3 / 10) (repetitions * (1 / 50))
    let rate0 := base_success_rate + repetition_bonus
    let rate1 :=
      if 8 < s.age then rate0 * (4 / 5)
      else if s.age < 2 then rate0 * (6 / 5)
      else rate0
    let success_rate := min (19 / 20) rate1
    let p := randomRandom rng
    if p.1 ≤ success_rate then
      let s1 := { s with
        learned_commands := s.learned_commands ++ [command]
        happiness_level := min 100 (s.happiness_level + 8)
        training_sessions := s.training_sessions ++
          [⟨"command_learned", "学会了" ++ command ++ "命令", now⟩] }
      (.success command repetitions trainer, s1, p.2)
    else
      let s1 := { s with training_sessions := s.training_sessions ++
        [⟨"training_attempt", "尝试学习" ++ command ++ "命令，需要更多练习", now⟩] }
      (.progress command repetitions, s1, p.2)

/-- Iterate `feed` over a list of (food_type, amount, now) argument
triples. -/
def feedSeq (s : CanineState) : List (String × ℚ × Nat) → CanineState
  | [] => s
  | a :: rest => feedSeq (feedState s a.1 a.2.1 a.2.2) rest

/-- The [0,100] bounds invariant on the two clamped stats. -/
def StatsIn (s : CanineState) : Prop :=
  0 ≤ s.energy_level ∧ s.energy_level ≤ 100 ∧
    0 ≤ s.happiness_level ∧ s.happiness_level ≤ 100

instance (s : CanineState) : Decidable (StatsIn s) := by
  unfold StatsIn; infer_instance

/-- The new log extends the old one: every old record survives unchanged
and in place, and only appends happened. -/
def LogExtends (old new : List AnimalRecord) : Prop :=
  ∃ t, new = old ++ t

/-- A concrete healthy canine as produced by the constructors: energy 100,
happiness 80, alive, attribute draws inside their `randint` ranges. -/
def aBao : CanineState :=
  { name := "阿宝"
    is_alive := true
    is_hungry := false
    is_sleeping := false
    energy_level := 100
    happiness_level := 80
    age := 3
    weight := 20
    last_fed := none
    last_exercise := none
    health := ⟨"良好", none, []⟩
    activity_log := [⟨"创建", "动物阿宝已注册到系统", 0⟩]
    favorite_activities := []
    playfulness := 60
    scent_tracking_ability := 90
    pursuit_endurance_km := 10
    trainability_score := 80
    loyalty_level := 80
    digging_spots := []
    tracking_records := []
    play_sessions := []
    learned_commands := []
    training_sessions := [] }

/-- The same canine, dead. -/
def deadABao : CanineState := { aBao with is_alive := false }

/-- The same canine, alive but with energy 10 (below every threshold). -/
def tiredABao : CanineState := { aBao with energy_level := 10 }

/-! Basic facts about the pseudo-random generator. -/

theorem lcgNext_lt (seed : Nat) : lcgNext seed < 2147483648 :=
  Nat.mod_lt _ (by norm_num)

theorem randomRandom_nonneg (seed : Nat) : 0 ≤ (randomRandom seed).1 := by
  unfold randomRandom
  dsimp only
  rw [Rat.divInt_eq_div]
  positivity

theorem randomRandom_lt_one (seed : Nat) : (randomRandom seed).1 < 1 := by
  unfold randomRandom
  dsimp only
  rw [Rat.divInt_eq_div, div_lt_one (by norm_num)]
  exact_mod_cast lcgNext_lt seed

theorem randomUniform_le_left (a b : ℚ) (h : a ≤ b) (seed : Nat) :
    a ≤ (randomUniform a b seed).1 := by
  have h0 := randomRandom_nonneg seed
  unfold randomUniform
  dsimp only
  nlinarith

theorem randomUniform_le_right (a b : ℚ) (h : a ≤ b) (seed : Nat) :
    (randomUniform a b seed).1 ≤ b := by
  have h0 := randomRandom_nonneg seed
  have h1 := randomRandom_lt_one seed
  unfold randomUniform
  dsimp only
  nlinarith

theorem difficultyPenalty_nonneg (difficulty : String) :
    0 ≤ difficultyPenalty difficulty := by
  unfold difficultyPenalty
  split_ifs <;> norm_num

/-! Preservation of the [0,100] bounds, one lemma per operation. -/

theorem feedState_stats (s : CanineState) (hs : StatsIn s)
    (food : String) (amount : ℚ) (now : Nat) :
    StatsIn (feedState s food amount now) := by
  obtain ⟨e0, e1, p0, p1⟩ := hs
  simp only [feedState, feed]
  split_ifs with h1
  · exact ⟨e0, e1, p0, p1⟩
  · exact ⟨le_min (by norm_num) (by linarith), min_le_left _ _,
      le_min (by norm_num) (by linarith), min_le_left _ _⟩

theorem exerciseState_stats (s : CanineState) (hs : StatsIn s)
    (ex : String) (duration : ℚ) (now : Nat) :
    StatsIn (exerciseState s ex duration now) := by
  obtain ⟨e0, e1, p0, p1⟩ := hs
  simp only [exerciseState, exercise]
  split_ifs with h1 h2 h3
  · exact ⟨e0, e1, p0, p1⟩
  · exact ⟨e0, e1, p0, p1⟩
  · exact ⟨le_max_left _ _, max_le (by norm_num) (by linarith),
      le_min (by norm_num) (by linarith), min_le_left _ _⟩
  · exact ⟨le_max_left _ _, max_le (by norm_num) (by linarith),
      le_min (by norm_num) (by linarith), min_le_left _ _⟩

theorem sleep_stats (s : CanineState) (hs : StatsIn s)
    (duration : ℚ) (hd : 0 ≤ duration) (now : Nat) :
    StatsIn (sleep s duration now) := by
  obtain ⟨e0, e1, p0, p1⟩ := hs
  simp only [sleep]
  split_ifs with h1
  · exact ⟨e0, e1, p0, p1⟩
  · exact ⟨le_min (by norm_num) (by nlinarith), min_le_left _ _, p0, p1⟩

theorem hunt_prey_stats (s : CanineState) (hs : StatsIn s)
    (prey : String) (rate : ℚ) (rng now : Nat) :
    StatsIn (hunt_prey s prey rate rng now).2.1 := by
  obtain ⟨e0, e1, p0, p1⟩ := hs
  have g0 := randomUniform_le_left 40 60 (by norm_num) (randomRandom rng).2
  have g1 := randomUniform_le_right 40 60 (by norm_num) (randomRandom rng).2
  simp only [hunt_prey]
  split_ifs with h1 h2
  · exact ⟨e0, e1, p0, p1⟩
  · push_neg at h1
    exact ⟨le_min (by norm_num) (by linarith), min_le_left _ _,
      le_min (by norm_num) (by linarith), min_le_left _ _⟩
  · push_neg at h1
    refine ⟨?_, ?_, le_max_left _ _, max_le (by norm_num) (by linarith)⟩
    · show (0 : ℚ) ≤ s.energy_level - 25
      linarith
    · show s.energy_level - 25 ≤ 100
      linarith

theorem dig_hole_stats (s : CanineState) (hs : StatsIn s)
    (purpose : String) (depth_cm : ℚ) (hd : 0 ≤ depth_cm) (now : Nat) :
    StatsIn (dig_hole s purpose depth_cm now).2 := by
  obtain ⟨e0, e1, p0, p1⟩ := hs
  simp only [dig_hole]
  split_ifs with h1 h2
  · exact ⟨e0, e1, p0, p1⟩
  · exact ⟨e0, e1, p0, p1⟩
  · exact ⟨le_max_left _ _, max_le (by norm_num) (by nlinarith),
      le_min (by norm_num) (by linarith), min_le_left _ _⟩

theorem play_with_object_stats (s : CanineState) (hs : StatsIn s)
    (hp : 0 ≤ s.playfulness) (obj : String) (duration_minutes : ℚ)
    (hd : 0 ≤ duration_minutes) (rng now : Nat) :
    StatsIn (play_with_object s obj duration_minutes rng now).2.1 := by
  obtain ⟨e0, e1, p0, p1⟩ := hs
  simp only [play_with_object]
  split_ifs with h1 h2 h3
  · exact ⟨e0, e1, p0, p1⟩
  · exact ⟨e0, e1, p0, p1⟩
  · exact ⟨le_max_left _ _, max_le (by norm_num) (by nlinarith),
      le_min (by norm_num) (by nlinarith), min_le_left _ _⟩
  · exact ⟨le_max_left _ _, max_le (by norm_num) (by nlinarith),
      le_min (by norm_num) (by nlinarith), min_le_left _ _⟩

theorem track_scent_stats (s : CanineState) (hs : StatsIn s)
    (scent : String) (age_hours : ℚ) (hah : 0 ≤ age_hours)
    (difficulty : String) (rng now : Nat) :
    StatsIn (track_scent s scent age_hours difficulty rng now).2.1 := by
  obtain ⟨e0, e1, p0, p1⟩ := hs
  have hdp := difficultyPenalty_nonneg difficulty
  simp only [track_scent]
  split_ifs with h1 h2 h3 h4
  · exact ⟨e0, e1, p0, p1⟩
  · exact ⟨e0, e1, p0, p1⟩
  · exact ⟨le_max_left _ _, max_le (by norm_num) (by nlinarith),
      le_min (by norm_num) (by linarith), min_le_left _ _⟩
  · exact ⟨le_max_left _ _, max_le (by norm_num) (by nlinarith),
      le_min (by norm_num) (by linarith), min_le_left _ _⟩
  · exact ⟨le_max_left _ _, max_le (by norm_num) (by nlinarith),
      le_max_left _ _, max_le (by norm_num) (by linarith)⟩

/-- Auxiliary: any sequence of `feed` calls preserves the bounds. -/
theorem feedSeq_stats (args : List (String × ℚ × Nat)) (s : CanineState)
    (hs : StatsIn s) : StatsIn (feedSeq s args) := by
  induction args generalizing s with
  | nil => exact hs
  | cons a rest ih => exact ih _ (feedState_stats s hs a.1 a.2.1 a.2.2)

/-- C1 counterexample: the claim quantifies over ALL argument values, but
`sleep` only clamps from above, so a negative duration drives
`energy_level` below 0 (here -50 after `sleep(-30)` on a full-energy
entity). -/
theorem sleep_negative_duration_energy_below_zero :
    (sleep aBao (-30) 1).energy_level < 0 ∧ StatsIn aBao := by
  constructor
  · norm_num [sleep, aBao, logActivity]
  · decide

/-- C1 (amended): after each stat-mutating operation (`feed`, `exercise`,
`sleep`, `hunt_prey`, `dig_hole`, `play_with_object`, `track_scent`) on an
entity whose stats are in [0,100] and whose playfulness attribute is
nonnegative (construction draws it in [40,85]), `energy_level` and
`happiness_level` stay within [0,100] — provided the `sleep` duration,
`dig_hole` depth, `play_with_object` duration and `track_scent` scent age
are nonnegative.  With negative values for those arguments the bounds can
fail, as the counterexample shows. -/
theorem stats_stay_in_range (s : CanineState) (hs : StatsIn s)
    (hpf : 0 ≤ s.playfulness) (food : String) (amount : ℚ) (ex : String)
    (dur : ℚ) (sd : ℚ) (prey : String) (rate : ℚ) (purpose : String)
    (depth : ℚ) (obj : String) (pd : ℚ) (scent : String)
    (ah : ℚ) (difficulty : String) (rng now : Nat) :
    StatsIn (feedState s food amount now) ∧
    StatsIn (exerciseState s ex dur now) ∧
    (0 ≤ sd → StatsIn (sleep s sd now)) ∧
    StatsIn (hunt_prey s prey rate rng now).2.1 ∧
    (0 ≤ depth → StatsIn (dig_hole s purpose depth now).2) ∧
    (0 ≤ pd → StatsIn (play_with_object s obj pd rng now).2.1) ∧
    (0 ≤ ah → StatsIn (track_scent s scent ah difficulty rng now).2.1) :=
  ⟨feedState_stats s hs food amount now,
   exerciseState_stats s hs ex dur now,
   fun h => sleep_stats s hs sd h now,
   hunt_prey_stats s hs prey rate rng now,
   fun h => dig_hole_stats s hs purpose depth h now,
   fun h => play_with_object_stats s hs hpf obj pd h rng now,
   fun h => track_scent_stats s hs scent ah h difficulty rng now⟩

/-- C1 witness: the amended statement applied to the concrete entity with
all hypotheses discharged. -/
theorem stats_stay_in_range_witness :
    StatsIn (feedState aBao "普通食物" 1 1) ∧
    StatsIn (exerciseState aBao "散步" 30 1) ∧
    StatsIn (sleep aBao 8 1) ∧
    StatsIn (hunt_prey aBao "兔子" (6 / 10) 0 1).2.1 ∧
    StatsIn (dig_hole aBao "藏食物" 30 1).2 ∧
    StatsIn (play_with_object aBao "球" 15 0 1).2.1 ∧
    StatsIn (track_scent aBao "兔子" 2 "中等" 0 1).2.1 := by
  have h := stats_stay_in_range aBao (by decide) (by decide) "普通食物" 1
    "散步" 30 8 "兔子" (6 / 10) "藏食物" 30 "球" 15 "兔子" 2 "中等" 0 1
  exact ⟨h.1, h.2.1, h.2.2.1 (by decide), h.2.2.2.1, h.2.2.2.2.1 (by decide),
    h.2.2.2.2.2.1 (by decide), h.2.2.2.2.2.2 (by decide)⟩

/-- C4: for every living entity whose stats are within [0,100] (as they
are at construction: energy 100, happiness 80), after any finite sequence
of `feed` calls the stats are still within [0,100]; since every prefix of
such a sequence is itself such a sequence, the bounds hold at every
intermediate point. -/
theorem feed_sequence_stats_in_range (s : CanineState)
    (ha : s.is_alive = true) (hs : StatsIn s)
    (args : List (String × ℚ × Nat)) : StatsIn (feedSeq s args) :=
  feedSeq_stats args s hs

/-- C4 witness. -/
theorem feed_sequence_stats_in_range_witness :
    StatsIn (feedSeq aBao [("普通食物", 1, 1), ("肉", 2, 2), ("鱼", 3, 3)]) :=
  feed_sequence_stats_in_range aBao rfl (by decide) _

/-- C5: on a living entity, `age_up(1)` adds exactly 1 to the age and
appends exactly one record to the activity log (the possible old-age
health update touches only the health sub-record). -/
theorem age_up_one_adds_one_year_one_record (s : CanineState)
    (ha : s.is_alive = true) (life_expectancy : Int) (now : Nat) :
    (age_up s 1 life_expectancy now).age = s.age + 1 ∧
    (age_up s 1 life_expectancy now).activity_log.length =
      s.activity_log.length + 1 := by
  simp only [age_up, ha]
  rw [if_neg (by simp)]
  split_ifs with h1 <;>
    simp [logActivity, updateHealthStatus]

/-- C5 witness. -/
theorem age_up_one_adds_one_year_one_record_witness :
    (age_up aBao 1 12 1).age = aBao.age + 1 ∧
    (age_up aBao 1 12 1).activity_log.length = aBao.activity_log.length + 1 :=
  age_up_one_adds_one_year_one_record aBao rfl 12 1

/-- C6: hunting is deterministic under a fixed generator seed: two
`hunt_prey` runs from identical entity states with identical arguments,
seed and clock produce identical results, post-states and next seeds. -/
theorem hunt_prey_deterministic (s₁ s₂ : CanineState) (p₁ p₂ : String)
    (r₁ r₂ : ℚ) (rng₁ rng₂ t₁ t₂ : Nat) (hs : s₁ = s₂) (hp : p₁ = p₂)
    (hr : r₁ = r₂) (hg : rng₁ = rng₂) (ht : t₁ = t₂) :
    hunt_prey s₁ p₁ r₁ rng₁ t₁ = hunt_prey s₂ p₂ r₂ rng₂ t₂ := by
  subst hs hp hr hg ht
  rfl

/-- C6 witness. -/
theorem hunt_prey_deterministic_witness :
    hunt_prey aBao "兔子" (6 / 10) 42 1 = hunt_prey aBao "兔子" (6 / 10) 42 1 :=
  hunt_prey_deterministic aBao aBao "兔子" "兔子" (6 / 10) (6 / 10) 42 42 1 1
    rfl rfl rfl rfl rfl

/-- C9: on a dead entity `sleep` and `age_up` return at once: the entity
state (every field, including the activity log) is returned unchanged. -/
theorem dead_sleep_age_up_noop (s : CanineState) (h : s.is_alive = false)
    (duration : ℚ) (years life_expectancy : Int) (now : Nat) :
    sleep s duration now = s ∧ age_up s years life_expectancy now = s := by
  constructor
  · simp [sleep, h]
  · simp [age_up, h]

/-- C9 witness. -/
theorem dead_sleep_age_up_noop_witness :
    sleep deadABao 8 1 = deadABao ∧ age_up deadABao 1 12 1 = deadABao :=
  dead_sleep_age_up_noop deadABao rfl 8 1 12 1

/-- Auxiliary: a log extends itself. -/
theorem logExtends_self (l : List AnimalRecord) : LogExtends l l :=
  ⟨[], by simp⟩

/-- Auxiliary: appending extends a log. -/
theorem logExtends_append (l r : List AnimalRecord) : LogExtends l (l ++ r) :=
  ⟨r, rfl⟩

/-- C2: evaluation at the failing input.  `Mammal.hunt_prey` has no
`is_alive` check (unlike `track_scent`, `dig_hole`, `play_with_object` and
`regulate_body_temperature`, which all guard on it), so a dead entity with
energy 100 is not rejected with an InvalidState error: the hunt proceeds,
returns `status = 'success'` and mutates the dead entity's happiness. -/
theorem hunt_prey_dead_entity_not_rejected :
    deadABao.is_alive = false ∧
    (hunt_prey deadABao "兔子" (6 / 10) 0 1).1.status = "success" ∧
    (hunt_prey deadABao "兔子" (6 / 10) 0 1).2.1.happiness_level = 100 := by
  refine ⟨rfl, ?_, ?_⟩ <;>
    norm_num [hunt_prey, deadABao, aBao, randomRandom, lcgNext,
      Rat.divInt_eq_div, HuntResult.status, logActivity]

/-- C3 counterexample: `Animal.feed` reports the dead-entity InvalidState
condition by RAISING `ValueError` (modelled as `Except.error`), not by
returning a result value, contradicting the claim that such errors are
never reported by raising an exception. -/
theorem feed_dead_raises_value_error :
    feed deadABao "普通食物" 1 1 =
      Except.error (PyError.valueError "阿宝已经死亡，无法喂食") := by
  rfl

/-- C3 (amended): `hunt_prey` reports InsufficientResource, and
`learn_command` reports every outcome, as returned result values; but
`feed` and `exercise` report InvalidState and InsufficientResource by
raising `ValueError` — a catchable exception, so recoverable, yet not a
returned outcome value. -/
theorem error_reporting_channels (s : CanineState) (food : String)
    (amount : ℚ) (ex : String) (dur : ℚ) (prey : String) (rate : ℚ)
    (cmd trainer : String) (reps : ℚ) (rng now : Nat) :
    (s.is_alive = false → feed s food amount now =
      .error (.valueError (s.name ++ "已经死亡，无法喂食"))) ∧
    (s.is_alive = true → s.energy_level < 20 → exercise s ex dur now =
      .error (.valueError (s.name ++ "太累了，需要休息"))) ∧
    (s.energy_level < 30 → (hunt_prey s prey rate rng now).1 =
      .insufficient_energy "能量不足，无法狩猎") ∧
    ((learn_command s cmd trainer reps rng now).1.status = "already_known" ∨
     (learn_command s cmd trainer reps rng now).1.status = "success" ∨
     (learn_command s cmd trainer reps rng now).1.status = "progress") := by
  refine ⟨fun h => ?_, fun ha he => ?_, fun he => ?_, ?_⟩
  · simp [feed, h]
  · simp [exercise, ha, he]
  · simp [hunt_prey, he]
  · simp only [learn_command]
    split_ifs <;> simp [LearnResult.status]

/-- C3 witness for the amended statement. -/
theorem error_reporting_channels_witness :
    feed deadABao "普通食物" 1 1 =
      .error (.valueError (deadABao.name ++ "已经死亡，无法喂食")) ∧
    exercise tiredABao "散步" 30 1 =
      .error (.valueError (tiredABao.name ++ "太累了，需要休息")) ∧
    (hunt_prey tiredABao "兔子" (6 / 10) 0 1).1 =
      .insufficient_energy "能量不足，无法狩猎" ∧
    ((learn_command aBao "坐下" "主人" 10 0 1).1.status = "already_known" ∨
     (learn_command aBao "坐下" "主人" 10 0 1).1.status = "success" ∨
     (learn_command aBao "坐下" "主人" 10 0 1).1.status = "progress") := by
  have h1 := error_reporting_channels deadABao "普通食物" 1 "散步" 30 "兔子"
    (6 / 10) "坐下" "主人" 10 0 1
  have h2 := error_reporting_channels tiredABao "普通食物" 1 "散步" 30 "兔子"
    (6 / 10) "坐下" "主人" 10 0 1
  have h3 := error_reporting_channels aBao "普通食物" 1 "散步" 30 "兔子"
    (6 / 10) "坐下" "主人" 10 0 1
  exact ⟨h1.1 rfl, h2.2.1 rfl (by decide), h2.2.2.1 (by decide), h3.2.2.2⟩

/-- C7: an operation that fails for insufficient energy is atomic — the
post-state equals the pre-state in every field (log included); for
`exercise` the failure is the raised ValueError, for the others the
returned insufficient-energy result. -/
theorem insufficient_energy_atomic (s : CanineState) (ex : String) (dur : ℚ)
    (prey : String) (rate : ℚ) (scent : String) (ah : ℚ)
    (difficulty purpose : String) (depth : ℚ) (obj : String) (pd : ℚ)
    (rng now : Nat) :
    (s.is_alive = true → s.energy_level < 20 →
      exerciseState s ex dur now = s ∧
      ∃ m, exercise s ex dur now = .error (.valueError m)) ∧
    (s.energy_level < 30 →
      (hunt_prey s prey rate rng now).2.1 = s ∧
      (hunt_prey s prey rate rng now).1 =
        .insufficient_energy "能量不足，无法狩猎") ∧
    (s.is_alive = true → s.energy_level < 20 →
      (track_scent s scent ah difficulty rng now).2.1 = s) ∧
    (s.is_alive = true → s.energy_level < 25 →
      (dig_hole s purpose depth now).2 = s) ∧
    (s.is_alive = true → s.energy_level < 15 →
      (play_with_object s obj pd rng now).2.1 = s) := by
  refine ⟨fun ha he => ⟨?_, ?_⟩, fun he => ⟨?_, ?_⟩, fun ha he => ?_,
    fun ha he => ?_, fun ha he => ?_⟩
  · simp [exerciseState, exercise, ha, he]
  · exact ⟨s.name ++ "太累了，需要休息", by simp [exercise, ha, he]⟩
  · simp [hunt_prey, he]
  · simp [hunt_prey, he]
  · simp [track_scent, ha, he]
  · simp [dig_hole, ha, he]
  · simp [play_with_object, ha, he]

/-- C7 witness: at energy 10 every threshold fails and the state is
returned unchanged. -/
theorem insufficient_energy_atomic_witness :
    exerciseState tiredABao "散步" 30 1 = tiredABao ∧
    (hunt_prey tiredABao "兔子" (6 / 10) 0 1).2.1 = tiredABao ∧
    (track_scent tiredABao "兔子" 2 "中等" 0 1).2.1 = tiredABao ∧
    (dig_hole tiredABao "藏食物" 30 1).2 = tiredABao ∧
    (play_with_object tiredABao "球" 15 0 1).2.1 = tiredABao := by
  have h := insufficient_energy_atomic tiredABao "散步" 30 "兔子" (6 / 10)
    "兔子" 2 "中等" "藏食物" 30 "球" 15 0 1
  exact ⟨(h.1 rfl (by decide)).1, (h.2.1 (by decide)).1,
    h.2.2.1 rfl (by decide), h.2.2.2.1 rfl (by decide),
    h.2.2.2.2 rfl (by decide)⟩

/-- C8: the activity log is append-only under every modelled operation:
the old log is always a literal prefix of the new one, so no record is
ever removed or altered and only appends happen. -/
theorem activity_log_append_only (s : CanineState) (food : String)
    (amount : ℚ) (ex : String) (dur : ℚ) (sd : ℚ)
    (years life_expectancy : Int) (prey : String) (rate : ℚ)
    (scent : String) (ah : ℚ) (difficulty purpose : String) (depth : ℚ)
    (obj : String) (pd : ℚ) (cmd trainer : String) (reps : ℚ)
    (rng now : Nat) :
    LogExtends s.activity_log (feedState s food amount now).activity_log ∧
    LogExtends s.activity_log (exerciseState s ex dur now).activity_log ∧
    LogExtends s.activity_log (sleep s sd now).activity_log ∧
    LogExtends s.activity_log (age_up s years life_expectancy now).activity_log ∧
    LogExtends s.activity_log (hunt_prey s prey rate rng now).2.1.activity_log ∧
    LogExtends s.activity_log
      (track_scent s scent ah difficulty rng now).2.1.activity_log ∧
    LogExtends s.activity_log (dig_hole s purpose depth now).2.activity_log ∧
    LogExtends s.activity_log
      (play_with_object s obj pd rng now).2.1.activity_log ∧
    LogExtends s.activity_log
      (learn_command s cmd trainer reps rng now).2.1.activity_log := by
  refine ⟨?_, ?_, ?_, ?_, ?_, ?_, ?_, ?_, ?_⟩ <;>
  · simp only [feedState, feed, exerciseState, exercise, sleep, age_up,
      hunt_prey, track_scent, dig_hole, play_with_object, learn_command]
    split_ifs <;>
      first
        | exact logExtends_self _
        | exact logExtends_append _ _

/-- C10: a hunt whose Bernoulli draw fails, on an entity with energy ≥ 30,
still costs: the 25-point hunting cost is charged before the draw, so
energy drops by exactly 25, happiness becomes `max 0 (old - 10)`, and
exactly one record is appended to the activity log. -/
theorem hunt_failure_exact_costs (s : CanineState) (prey : String)
    (rate : ℚ) (rng now : Nat) (he : 30 ≤ s.energy_level)
    (hr : rate < (randomRandom rng).1) :
    (hunt_prey s prey rate rng now).1 = .failed 25 prey ∧
    (hunt_prey s prey rate rng now).2.1.energy_level = s.energy_level - 25 ∧
    (hunt_prey s prey rate rng now).2.1.happiness_level =
      max 0 (s.happiness_level - 10) ∧
    (hunt_prey s prey rate rng now).2.1.activity_log.length =
      s.activity_log.length + 1 := by
  have h1 : ¬(s.energy_level < 30) := not_lt.mpr he
  have h2 : ¬((randomRandom rng).1 ≤ rate) := not_le.mpr hr
  simp [hunt_prey, h1, h2, logActivity]

/-- C10 witness: with success rate 0 the first draw from seed 0 fails the
hunt, and the exact costs are observed on the concrete entity. -/
theorem hunt_failure_exact_costs_witness :
    (hunt_prey aBao "兔子" 0 0 1).1 = .failed 25 "兔子" ∧
    (hunt_prey aBao "兔子" 0 0 1).2.1.energy_level = aBao.energy_level - 25 ∧
    (hunt_prey aBao "兔子" 0 0 1).2.1.happiness_level =
      max 0 (aBao.happiness_level - 10) ∧
    (hunt_prey aBao "兔子" 0 0 1).2.1.activity_log.length =
      aBao.activity_log.length + 1 :=
  hunt_failure_exact_costs aBao "兔子" 0 0 1 (by decide)
    (by norm_num [randomRandom, lcgNext, Rat.divInt_eq_div])

end AnimalSim
